import Mathlib

/-!
Verification of the WinPR thread-handle emulation
(`src/winpr/libwinpr/thread/thread.c`).

The C file implements a Windows-style thread object over pthreads.  We give a
shallow embedding: the mutable `WINPR_THREAD` record becomes a Lean structure,
each API function becomes a pure state-transition function, and the outcomes of
fallible host primitives (mutex lock/unlock, condition signal, `pthread_create`,
allocation) are passed in as explicit boolean environments, one flag per call
site, mirroring the branch structure of the C code.  For the ordering claims we
additionally give trace functions that emit one event per operation the C code
performs, in program order, with the same branch structure.

External collaborators that are not part of `src/` (the APC queue from `apc.c`,
the `winpr_event` latch, the generic handle/wait mechanism from `handle.c`) are
modelled from the spec's contracts for them; each such definition carries a doc
comment saying so.

We model the default build configuration (`WITH_THREAD_LIST` off,
`WITH_DEBUG_THREADS` off, non-Android), except for `ExitThread`, whose entire
meaningful body is inside `#if defined(WITH_THREAD_LIST)`; there we model that
branch, in the case where the calling thread is found in the list, since that is
the code the spec describes.
-/

namespace WinPRThread

/-- Windows error code ERROR_INVALID_HANDLE. -/
def ERROR_INVALID_HANDLE : Nat := 6

/-- Windows error code ERROR_INVALID_PARAMETER. -/
def ERROR_INVALID_PARAMETER : Nat := 87

/-- Windows error code ERROR_CALL_NOT_IMPLEMENTED. -/
def ERROR_CALL_NOT_IMPLEMENTED : Nat := 120

/-- Wait result WAIT_OBJECT_0. -/
def WAIT_OBJECT_0 : Nat := 0

/-- Wait result WAIT_TIMEOUT (0x102). -/
def WAIT_TIMEOUT : Nat := 258

/-- The DWORD value `(DWORD)-1` = 2^32 - 1, used as a failure sentinel. -/
def DWORD_MINUS_ONE : Nat := 4294967295

/-- The `WINPR_THREAD` record of `thread.c` (its fields that the API functions
read or write).  `validType` models `Type == HANDLE_TYPE_THREAD` together with
the handle being non-null, i.e. the handle referring to a live thread object.
`eventSet` is the state of the owned `winpr_event` signal latch.
`lpStartAddress` is the user start routine (`none` models a NULL pointer);
it is a mathematical function `DWORD -> DWORD` of the argument.
`apcQueue` is the owned APC (callback-queue) context, a FIFO list of
(callback id, argument) pairs; `apcCleaned` records whether
`apc_cleanupThread` has drained it. -/
structure WINPR_THREAD where
  validType : Bool
  started : Bool
  exited : Bool
  detached : Bool
  joined : Bool
  dwExitCode : Nat
  eventSet : Bool
  lpStartAddress : Option (Nat → Nat)
  lpParameter : Nat
  dwStackSize : Nat
  apcQueue : List (Nat × Nat)
  apcCleaned : Bool

/-- Modelled from the spec: the signal primitive's `set()` operation
(`winpr_event_set`, wrapped as `set_event` in `thread.c`) sets the boolean
latch. -/
def set_event (t : WINPR_THREAD) : WINPR_THREAD :=
  { t with eventSet := true }

/-- Modelled from the spec: the signal primitive's `reset()` operation
(`winpr_event_reset`, wrapped as `reset_event` in `thread.c`) clears the
boolean latch. -/
def reset_event (t : WINPR_THREAD) : WINPR_THREAD :=
  { t with eventSet := false }

/-- Modelled from the spec: `apc_cleanupThread` (from `apc.c`, the
callback-queue subsystem's `drainForThreadExit(context)` hook) drains the
object's callback-queue context. -/
def apc_cleanupThread (t : WINPR_THREAD) : WINPR_THREAD :=
  { t with apcQueue := [], apcCleaned := true }

/-- Modelled from the spec: `winpr_Handle_GetInfo` (from `handle.c`) succeeds
exactly when the handle refers to a live object of the expected kind; for this
core that is `validType`. -/
def winpr_Handle_GetInfo (t : WINPR_THREAD) : Bool :=
  t.validType

/-- `GetExitCodeThread` (thread.c:639): validates the handle, then copies
`thread->dwExitCode` to the out parameter and returns TRUE; on an invalid
handle it returns FALSE.  `some code` models (TRUE, *lpExitCode = code),
`none` models FALSE. -/
def GetExitCodeThread (t : WINPR_THREAD) : Option Nat :=
  if winpr_Handle_GetInfo t then some t.dwExitCode else none

/-- Outcomes of the fallible host primitives called by `thread_launcher`, one
flag per call site, in program order: `TlsSetValue`, the lock of
`threadIsReadyMutex`, `pthread_cond_signal(threadReady)`, the unlock of
`threadIsReadyMutex`.  (The return value of `pthread_cond_timedwait` is
ignored by the C code, so it has no flag.) -/
structure LauncherEnv where
  tlsSetOk : Bool
  lockOk : Bool
  condSignalOk : Bool
  unlockOk : Bool

/-- Result of running the launcher: the final state of the thread object at
the moment `thread_launcher` returns, and whether the launcher's exit path
destroyed the object (`cleanup_handle`). -/
structure LaunchResult where
  thread : WINPR_THREAD
  destroyed : Bool

/-- The `exit:` label of `thread_launcher` (thread.c:340-354): drain the APC
context, store `rc` as the exit code unless an explicit exit was already
recorded (`thread->exited`), set the signal latch, signal `threadReady` once
more, and destroy the object if it is detached or was never started. -/
def launcher_exit (rc : Nat) (t : WINPR_THREAD) : LaunchResult :=
  let t1 := apc_cleanupThread t
  let t2 := if !t1.exited then { t1 with dwExitCode := rc } else t1
  let t3 := set_event t2
  { thread := t3, destroyed := t3.detached || !t3.started }

/-- `thread_launcher` (thread.c:291-357), for a non-null argument: bind the
TLS current-thread slot, check the start routine, run the rendezvous (lock
`threadIsReadyMutex`, signal `threadReady`, timed-wait on `threadIsReady`,
unlock), invoke the user start routine, and fall through to the exit path.
Every failure jumps to the exit path with `rc = 0`. -/
def thread_launcher (env : LauncherEnv) (t : WINPR_THREAD) : LaunchResult :=
  if !env.tlsSetOk then launcher_exit 0 t
  else
    match t.lpStartAddress with
    | none => launcher_exit 0 t
    | some fkt =>
      if !env.lockOk then launcher_exit 0 t
      else if !env.condSignalOk then launcher_exit 0 t
      else if !env.unlockOk then launcher_exit 0 t
      else launcher_exit (fkt t.lpParameter) t

/-- Events of the launcher's launch phase (thread.c:304-339), i.e. everything
up to and including the invocation of the user start routine; the exit path
is modelled separately by `launcher_exit`. -/
inductive LEv where
  | bindTls
  | lockIsReadyMutex
  | signalThreadReady
  | waitThreadIsReady
  | unlockIsReadyMutex
  | invokeUserFn
  deriving DecidableEq, Repr

/-- Trace of the launch phase of `thread_launcher`, one event per operation
attempted, in program order, with the same branch structure as the C code:
a failing operation still emits its event (it was attempted) and then jumps
to the exit path, emitting nothing further. -/
def thread_launcher_trace (env : LauncherEnv) (t : WINPR_THREAD) : List LEv :=
  if !env.tlsSetOk then [LEv.bindTls]
  else if t.lpStartAddress.isNone then [LEv.bindTls]
  else if !env.lockOk then [LEv.bindTls, LEv.lockIsReadyMutex]
  else if !env.condSignalOk then
    [LEv.bindTls, LEv.lockIsReadyMutex, LEv.signalThreadReady]
  else if !env.unlockOk then
    [LEv.bindTls, LEv.lockIsReadyMutex, LEv.signalThreadReady,
     LEv.waitThreadIsReady, LEv.unlockIsReadyMutex]
  else
    [LEv.bindTls, LEv.lockIsReadyMutex, LEv.signalThreadReady,
     LEv.waitThreadIsReady, LEv.unlockIsReadyMutex, LEv.invokeUserFn]

/-- Outcomes of the fallible host primitives called by `winpr_StartThread`,
one flag per call site, in program order: the lock of `threadReadyMutex`,
`pthread_create`, the unlock of `threadReadyMutex`,
`pthread_cond_signal(threadIsReady)`.  (The return value of
`pthread_cond_timedwait` is ignored by the C code.) -/
structure StartEnv where
  lockOk : Bool
  createOk : Bool
  unlockOk : Bool
  condSignalOk : Bool

/-- `winpr_StartThread` (thread.c:359-407): set `started`, reset the signal
latch, lock `threadReadyMutex`, spawn the OS thread, timed-wait on
`threadReady`, unlock, signal `threadIsReady`; TRUE on success, FALSE on any
failure.  Note the C code does not roll back `started` or the latch reset on
failure. -/
def winpr_StartThread (env : StartEnv) (t : WINPR_THREAD) : WINPR_THREAD × Bool :=
  let t1 := reset_event { t with started := true }
  if !env.lockOk then (t1, false)
  else if !env.createOk then (t1, false)
  else if !env.unlockOk then (t1, false)
  else if !env.condSignalOk then (t1, false)
  else (t1, true)

/-- Events of `winpr_StartThread`, in program order.  `spawnAttempt` is the
call to `pthread_create` (the attempt, whether or not it succeeds);
`returnSuccess` / `returnFailure` are the TRUE / FALSE returns. -/
inductive SEv where
  | markStarted
  | resetSignalLatch
  | lockReadyMutex
  | spawnAttempt
  | waitThreadReady
  | unlockReadyMutex
  | signalThreadIsReady
  | returnSuccess
  | returnFailure
  deriving DecidableEq, Repr

/-- Trace of `winpr_StartThread`, one event per operation attempted, in
program order, with the same branch structure as the C code. -/
def winpr_StartThread_trace (env : StartEnv) : List SEv :=
  if !env.lockOk then
    [SEv.markStarted, SEv.resetSignalLatch, SEv.lockReadyMutex, SEv.returnFailure]
  else if !env.createOk then
    [SEv.markStarted, SEv.resetSignalLatch, SEv.lockReadyMutex, SEv.spawnAttempt,
     SEv.returnFailure]
  else if !env.unlockOk then
    [SEv.markStarted, SEv.resetSignalLatch, SEv.lockReadyMutex, SEv.spawnAttempt,
     SEv.waitThreadReady, SEv.unlockReadyMutex, SEv.returnFailure]
  else if !env.condSignalOk then
    [SEv.markStarted, SEv.resetSignalLatch, SEv.lockReadyMutex, SEv.spawnAttempt,
     SEv.waitThreadReady, SEv.unlockReadyMutex, SEv.signalThreadIsReady,
     SEv.returnFailure]
  else
    [SEv.markStarted, SEv.resetSignalLatch, SEv.lockReadyMutex, SEv.spawnAttempt,
     SEv.waitThreadReady, SEv.unlockReadyMutex, SEv.signalThreadIsReady,
     SEv.returnSuccess]

/-- Outcomes of the fallible initializations performed by `CreateThread`, one
flag per call site, in program order: `calloc`, `winpr_event_init`,
`pthread_mutex_init(mutex)`, `apc_init`, `pthread_mutex_init` of the two
rendezvous mutexes, `pthread_cond_init` of the two rendezvous conditions,
`set_event` (suspended path), and the environment for `winpr_StartThread`
(non-suspended path). -/
structure CreateEnv where
  allocOk : Bool
  eventInitOk : Bool
  mutexInitOk : Bool
  apcInitOk : Bool
  isReadyMutexInitOk : Bool
  readyMutexInitOk : Bool
  isReadyCondInitOk : Bool
  readyCondInitOk : Bool
  setEventOk : Bool
  startEnv : StartEnv

/-- `CreateThread` (thread.c:409-490): allocate a zero-initialized object,
record the stack size, parameter, and start routine, initialize the signal
latch, the state mutex, the APC context, and the two rendezvous mutex/condition
pairs (any failure rolls back via `cleanup_handle` and returns NULL, modelled
as `none`); set the handle type; then, if not `CREATE_SUSPENDED`, run
`winpr_StartThread` (failure tears down and returns NULL), else preset the
signal latch to set. -/
def CreateThread (env : CreateEnv) (stackSize : Nat) (fn : Option (Nat → Nat))
    (param : Nat) (suspended : Bool) : Option WINPR_THREAD :=
  if !env.allocOk then none
  else
    let t : WINPR_THREAD :=
      { validType := true, started := false, exited := false, detached := false,
        joined := false, dwExitCode := 0, eventSet := false,
        lpStartAddress := fn, lpParameter := param, dwStackSize := stackSize,
        apcQueue := [], apcCleaned := false }
    if !env.eventInitOk then none
    else if !env.mutexInitOk then none
    else if !env.apcInitOk then none
    else if !env.isReadyMutexInitOk then none
    else if !env.readyMutexInitOk then none
    else if !env.isReadyCondInitOk then none
    else if !env.readyCondInitOk then none
    else if !suspended then
      let r := winpr_StartThread env.startEnv t
      if r.2 then some r.1 else none
    else if env.setEventOk then some (set_event t) else none

/-- Outcomes of the state-mutex lock and unlock inside `ResumeThread` /
`TerminateThread`. -/
structure MutexEnv where
  lockOk : Bool
  unlockOk : Bool

/-- Result of `ResumeThread`: the DWORD return value (0 on success,
`(DWORD)-1` on failure) and the resulting object state. -/
structure ResumeResult where
  ret : Nat
  thread : WINPR_THREAD

/-- `ResumeThread` (thread.c:738-767): validate the handle, lock the state
mutex; if the thread is not yet started, run `winpr_StartThread` (failure
unlocks and returns `(DWORD)-1`); if it is already started, only log a
warning (no state change); unlock and return 0. -/
def ResumeThread (menv : MutexEnv) (senv : StartEnv) (t : WINPR_THREAD) :
    ResumeResult :=
  if !winpr_Handle_GetInfo t then { ret := DWORD_MINUS_ONE, thread := t }
  else if !menv.lockOk then { ret := DWORD_MINUS_ONE, thread := t }
  else if !t.started then
    let r := winpr_StartThread senv t
    if !r.2 then { ret := DWORD_MINUS_ONE, thread := r.1 }
    else if !menv.unlockOk then { ret := DWORD_MINUS_ONE, thread := r.1 }
    else { ret := 0, thread := r.1 }
  else if !menv.unlockOk then { ret := DWORD_MINUS_ONE, thread := t }
  else { ret := 0, thread := t }

/-- Result of `SuspendThread`: the DWORD return value and the last-error code
it sets, plus the (untouched) object state. -/
structure SuspendResult where
  ret : Nat
  lastError : Option Nat
  thread : WINPR_THREAD

/-- `SuspendThread` (thread.c:769-774): logs "not implemented", sets
`ERROR_CALL_NOT_IMPLEMENTED`, and returns `(DWORD)-1`, without touching the
handle at all. -/
def SuspendThread (t : WINPR_THREAD) : SuspendResult :=
  { ret := DWORD_MINUS_ONE, lastError := some ERROR_CALL_NOT_IMPLEMENTED,
    thread := t }

/-- Result of `TerminateThread`: the BOOL return value, the resulting object
state, and whether a forced-cancellation request (`pthread_cancel`) was
issued. -/
structure TermResult where
  ret : Bool
  thread : WINPR_THREAD
  cancelRequested : Bool

/-- `TerminateThread` (thread.c:788-815), non-Android: validate the handle,
set `exited` and `dwExitCode` (before taking any lock), lock the state mutex,
issue `pthread_cancel` while holding it, unlock, then set the signal latch
and return TRUE.  Lock/unlock failures return FALSE. -/
def TerminateThread (menv : MutexEnv) (t : WINPR_THREAD) (code : Nat) :
    TermResult :=
  if !winpr_Handle_GetInfo t then
    { ret := false, thread := t, cancelRequested := false }
  else
    let t1 := { t with exited := true, dwExitCode := code }
    if !menv.lockOk then { ret := false, thread := t1, cancelRequested := false }
    else if !menv.unlockOk then
      { ret := false, thread := t1, cancelRequested := true }
    else { ret := true, thread := set_event t1, cancelRequested := true }

/-- Events of `TerminateThread` on a valid handle, in program order. -/
inductive TEv where
  | storeExitedFlagAndCode
  | lockStateMutex
  | cancelRequest
  | unlockStateMutex
  | setSignalLatch
  deriving DecidableEq, Repr

/-- Trace of `TerminateThread` on a valid handle, one event per operation
attempted, in program order, with the same branch structure as the C code. -/
def TerminateThread_trace (menv : MutexEnv) : List TEv :=
  if !menv.lockOk then [TEv.storeExitedFlagAndCode, TEv.lockStateMutex]
  else if !menv.unlockOk then
    [TEv.storeExitedFlagAndCode, TEv.lockStateMutex, TEv.cancelRequest,
     TEv.unlockStateMutex]
  else
    [TEv.storeExitedFlagAndCode, TEv.lockStateMutex, TEv.cancelRequest,
     TEv.unlockStateMutex, TEv.setSignalLatch]

/-- Result of `ExitThread` (self-exit): the object state at the moment of
`pthread_exit`, whether the object destroyed itself (`cleanup_handle`), and
the value passed to `pthread_exit`. -/
structure ExitResult where
  thread : WINPR_THREAD
  destroyed : Bool
  osExitCode : Nat

/-- `ExitThread` (thread.c:592-637), in the `WITH_THREAD_LIST` configuration,
in the branch where the calling thread is found in the list: set `exited` and
`dwExitCode`, set the signal latch, read the exit code back, destroy the
object if it is detached or was never started, and call `pthread_exit` with
the code.  Note the C code performs no draining of the APC context here. -/
def ExitThread (t : WINPR_THREAD) (code : Nat) : ExitResult :=
  let t1 := { t with exited := true, dwExitCode := code }
  let t2 := set_event t1
  { thread := t2, destroyed := t2.detached || !t2.started,
    osExitCode := t2.dwExitCode }

/-- Modelled from the spec: the generic wait contract with a zero timeout
(`WaitForSingleObject(thread, 0)`, from the `handle.c` wait mechanism not in
this file) reports `WAIT_OBJECT_0` exactly when the object's signal latch is
set, and `WAIT_TIMEOUT` otherwise. -/
def WaitForSingleObject0 (t : WINPR_THREAD) : Nat :=
  if t.eventSet then WAIT_OBJECT_0 else WAIT_TIMEOUT

/-- Result of `ThreadCloseHandle`: the BOOL return value, whether the object
was destroyed synchronously (`cleanup_handle`), whether a `pthread_detach`
request was issued, and the resulting object state. -/
structure CloseResult where
  ret : Bool
  destroyed : Bool
  detachRequested : Bool
  thread : WINPR_THREAD

/-- `ThreadCloseHandle` (thread.c:543-581), default configuration: if the
thread is started and a zero-timeout poll does not report it signaled (it is
still running), mark it detached and issue `pthread_detach`; otherwise destroy
the object synchronously with `cleanup_handle`.  Always returns TRUE.  The
detach branch performs no join and no blocking wait. -/
def ThreadCloseHandle (t : WINPR_THREAD) : CloseResult :=
  if t.started && !(WaitForSingleObject0 t == WAIT_OBJECT_0) then
    { ret := true, destroyed := false, detachRequested := true,
      thread := { t with detached := true } }
  else
    { ret := true, destroyed := true, detachRequested := false, thread := t }

/-- Events of `cleanup_handle` (thread.c:492-541), in program order: release
the APC context (`apc_uninit`), destroy the two rendezvous condition
variables, destroy the two rendezvous mutexes, destroy the state mutex,
release the signal primitive (`winpr_event_uninit`), free the memory. -/
inductive CEv where
  | releaseApcContext
  | releaseCondThreadIsReady
  | releaseCondThreadReady
  | releaseMutexThreadIsReady
  | releaseMutexThreadReady
  | releaseStateMutex
  | releaseSignalPrimitive
  | freeMemory
  deriving DecidableEq, Repr

/-- Outcomes of the individual release operations inside `cleanup_handle`,
one flag per call site, in program order. -/
structure CleanupEnv where
  apcOk : Bool
  condIsReadyOk : Bool
  condReadyOk : Bool
  mutexIsReadyOk : Bool
  mutexReadyOk : Bool
  stateMutexOk : Bool

/-- Trace of `cleanup_handle` (thread.c:492-541) on a non-null object: each
release is attempted in program order; a failing release only logs and the
function continues, so the trace does not depend on which releases fail.
Each step's event is emitted exactly when the C code reaches that call. -/
def cleanup_handle_trace (env : CleanupEnv) : List CEv :=
  let s1 := [CEv.releaseApcContext]
  let s2 := s1 ++ [CEv.releaseCondThreadIsReady]
  let s3 := s2 ++ [CEv.releaseCondThreadReady]
  let s4 := s3 ++ [CEv.releaseMutexThreadIsReady]
  let s5 := s4 ++ [CEv.releaseMutexThreadReady]
  let s6 := s5 ++ [CEv.releaseStateMutex]
  let s7 := s6 ++ [CEv.releaseSignalPrimitive]
  s7 ++ [CEv.freeMemory]

/-- Result of `QueueUserAPC`: the DWORD return value, the last-error code it
sets (if any), and the resulting state of the target object (whose
`apcQueue` is the callback-queue context). -/
structure QueueApcResult where
  ret : Nat
  lastError : Option Nat
  thread : WINPR_THREAD

/-- `QueueUserAPC` (thread.c:702-736): a NULL callback pointer returns 1
immediately (no validation, no error, no enqueue); otherwise an invalid
handle or a failed allocation of the bridge item sets
`ERROR_INVALID_PARAMETER` and returns 0; otherwise the bridge item pairing
the callback with its argument is registered (FIFO append, per the
callback-queue subsystem's contract for `apc_register`) and 1 is returned.
`pfnAPC` is `none` for a NULL pointer, `some f` for callback id `f`. -/
def QueueUserAPC (pfnAPC : Option Nat) (allocOk : Bool) (t : WINPR_THREAD)
    (dwData : Nat) : QueueApcResult :=
  match pfnAPC with
  | none => { ret := 1, lastError := none, thread := t }
  | some f =>
    if !winpr_Handle_GetInfo t then
      { ret := 0, lastError := some ERROR_INVALID_PARAMETER, thread := t }
    else if !allocOk then
      { ret := 0, lastError := some ERROR_INVALID_PARAMETER, thread := t }
    else
      { ret := 1, lastError := none,
        thread := { t with apcQueue := t.apcQueue ++ [(f, dwData)] } }

/-- The all-success environment for `winpr_StartThread`. -/
def startEnvOk : StartEnv :=
  { lockOk := true, createOk := true, unlockOk := true, condSignalOk := true }

/-- The all-success environment for `thread_launcher`. -/
def launcherEnvOk : LauncherEnv :=
  { tlsSetOk := true, lockOk := true, condSignalOk := true, unlockOk := true }

/-- The all-success environment for `CreateThread`. -/
def createEnvOk : CreateEnv :=
  { allocOk := true, eventInitOk := true, mutexInitOk := true,
    apcInitOk := true, isReadyMutexInitOk := true, readyMutexInitOk := true,
    isReadyCondInitOk := true, readyCondInitOk := true, setEventOk := true,
    startEnv := startEnvOk }

/-- The all-success lock/unlock environment. -/
def mutexEnvOk : MutexEnv :=
  { lockOk := true, unlockOk := true }

/-- The all-success environment for `cleanup_handle`. -/
def cleanupEnvOk : CleanupEnv :=
  { apcOk := true, condIsReadyOk := true, condReadyOk := true,
    mutexIsReadyOk := true, mutexReadyOk := true, stateMutexOk := true }

/-- `occursBefore a b l` holds when `a` occurs in `l` and some occurrence of
`b` lies strictly after the first occurrence of `a`. -/
def occursBefore {α : Type} [DecidableEq α] (a b : α) : List α → Bool
  | [] => false
  | x :: xs => if x = a then xs.contains b else occursBefore a b xs

/-- A sample user start routine, returning 42 on argument 1. -/
def sampleFn : Nat → Nat := fun n => n + 41

/-- The thread object produced by a successful non-suspended
`CreateThread createEnvOk 0 (some sampleFn) 1 false`, at the point where the
creator has run the Start sequence: started, latch reset, not yet exited. -/
def sampleStarted : WINPR_THREAD :=
  { validType := true, started := true, exited := false, detached := false,
    joined := false, dwExitCode := 0, eventSet := false,
    lpStartAddress := some sampleFn, lpParameter := 1, dwStackSize := 0,
    apcQueue := [], apcCleaned := false }

/-- The thread object produced by a successful suspended
`CreateThread createEnvOk 0 (some sampleFn) 1 true`: pending, latch preset
to set. -/
def sampleSuspended : WINPR_THREAD :=
  { validType := true, started := false, exited := false, detached := false,
    joined := false, dwExitCode := 0, eventSet := true,
    lpStartAddress := some sampleFn, lpParameter := 1, dwStackSize := 0,
    apcQueue := [], apcCleaned := false }

/-- A started, not-yet-exited thread object with one queued APC item
(callback id 5, argument 7). -/
def sampleWithApc : WINPR_THREAD :=
  { validType := true, started := true, exited := false, detached := false,
    joined := false, dwExitCode := 0, eventSet := false,
    lpStartAddress := none, lpParameter := 0, dwStackSize := 0,
    apcQueue := [(5, 7)], apcCleaned := false }

/-- An object whose handle is not a thread handle (`Type` is not
`HANDLE_TYPE_THREAD`). -/
def sampleInvalid : WINPR_THREAD :=
  { validType := false, started := false, exited := false, detached := false,
    joined := false, dwExitCode := 0, eventSet := false,
    lpStartAddress := none, lpParameter := 0, dwStackSize := 0,
    apcQueue := [], apcCleaned := false }

/-- C1: for every valid start function `fn` and argument, after a thread
created with `CreateThread(fn, arg, suspended := false)` runs `fn` to
completion via `thread_launcher` (all host primitives succeeding) and no
explicit self-exit was recorded (`exited` still false, as creation leaves it),
the object's signal latch is set, the object is not destroyed (its creator
still owns the handle), and `GetExitCodeThread` returns exactly
`fn(arg)`. -/
theorem C1_create_run_exit_code (s p : Nat) (fn : Nat → Nat) (t : WINPR_THREAD)
    (hc : CreateThread createEnvOk s (some fn) p false = some t) :
    (thread_launcher launcherEnvOk t).destroyed = false ∧
    (thread_launcher launcherEnvOk t).thread.eventSet = true ∧
    GetExitCodeThread (thread_launcher launcherEnvOk t).thread = some (fn p) := by
  have ht : t =
      { validType := true, started := true, exited := false, detached := false,
        joined := false, dwExitCode := 0, eventSet := false,
        lpStartAddress := some fn, lpParameter := p, dwStackSize := s,
        apcQueue := [], apcCleaned := false } := by
    simpa [CreateThread, createEnvOk, winpr_StartThread, startEnvOk,
      reset_event] using hc.symm
  subst ht
  simp [thread_launcher, launcherEnvOk, launcher_exit, apc_cleanupThread,
    set_event, GetExitCodeThread, winpr_Handle_GetInfo]

/-- Witness for C1 at `fn = sampleFn`, argument 1, stack size 0. -/
theorem C1_witness :
    (thread_launcher launcherEnvOk sampleStarted).destroyed = false ∧
    (thread_launcher launcherEnvOk sampleStarted).thread.eventSet = true ∧
    GetExitCodeThread (thread_launcher launcherEnvOk sampleStarted).thread =
      some 42 :=
  C1_create_run_exit_code 0 1 sampleFn sampleStarted rfl

/-- C2: in every execution of the startup rendezvous, (a) whenever the
launcher invokes the user start routine, it has already signaled
`threadReady` (launcherReady) and waited on `threadIsReady` (creatorReady),
both strictly before the invocation; and (b) whenever `winpr_StartThread`
returns success, the `pthread_create` spawn attempt occurred strictly before
that return. -/
theorem C2_rendezvous_ordering :
    (∀ (env : LauncherEnv) (t : WINPR_THREAD),
      LEv.invokeUserFn ∈ thread_launcher_trace env t →
        occursBefore LEv.signalThreadReady LEv.invokeUserFn
          (thread_launcher_trace env t) = true ∧
        occursBefore LEv.waitThreadIsReady LEv.invokeUserFn
          (thread_launcher_trace env t) = true) ∧
    (∀ senv : StartEnv,
      SEv.returnSuccess ∈ winpr_StartThread_trace senv →
        occursBefore SEv.spawnAttempt SEv.returnSuccess
          (winpr_StartThread_trace senv) = true) := by
  constructor
  · intro env t
    obtain ⟨a, b, c, d⟩ := env
    cases hn : t.lpStartAddress <;>
      cases a <;> cases b <;> cases c <;> cases d <;>
        simp only [thread_launcher_trace, hn, Option.isNone] <;> decide
  · intro senv
    obtain ⟨a, b, c, d⟩ := senv
    cases a <;> cases b <;> cases c <;> cases d <;>
      simp only [winpr_StartThread_trace] <;> decide

/-- Witness for C2 at the all-success environments and `sampleStarted`. -/
theorem C2_witness :
    (occursBefore LEv.signalThreadReady LEv.invokeUserFn
       (thread_launcher_trace launcherEnvOk sampleStarted) = true ∧
     occursBefore LEv.waitThreadIsReady LEv.invokeUserFn
       (thread_launcher_trace launcherEnvOk sampleStarted) = true) ∧
    occursBefore SEv.spawnAttempt SEv.returnSuccess
      (winpr_StartThread_trace startEnvOk) = true :=
  ⟨C2_rendezvous_ordering.1 launcherEnvOk sampleStarted (by decide),
   C2_rendezvous_ordering.2 startEnvOk (by decide)⟩

/-- C3 counterexample: the claim's locking discipline is false of
`TerminateThread`.  On the all-success trace, it is not the case that the
flag/exit-code update happens under the object's mutex (strictly between lock
and unlock) while the cancellation request is issued outside the lock: the
code stores the flags before taking the mutex and calls `pthread_cancel`
while holding it. -/
theorem C3_counterexample :
    ¬ ((occursBefore TEv.lockStateMutex TEv.storeExitedFlagAndCode
          (TerminateThread_trace mutexEnvOk) = true ∧
        occursBefore TEv.storeExitedFlagAndCode TEv.unlockStateMutex
          (TerminateThread_trace mutexEnvOk) = true) ∧
       ¬ (occursBefore TEv.lockStateMutex TEv.cancelRequest
            (TerminateThread_trace mutexEnvOk) = true ∧
          occursBefore TEv.cancelRequest TEv.unlockStateMutex
            (TerminateThread_trace mutexEnvOk) = true)) := by
  decide

/-- C3 (amended): for every valid thread handle, `TerminateThread` marks the
object exited with the given code and sets the signal latch, so
`GetExitCodeThread` subsequently returns that code, and it issues the
forced-cancellation request; but the flag/exit-code update is performed
before the object's mutex is taken (outside the lock), and the cancellation
request itself is issued while holding the mutex. -/
theorem C3_terminate_amended (t : WINPR_THREAD) (code : Nat)
    (hv : t.validType = true) :
    (TerminateThread mutexEnvOk t code).ret = true ∧
    (TerminateThread mutexEnvOk t code).thread.exited = true ∧
    (TerminateThread mutexEnvOk t code).thread.eventSet = true ∧
    GetExitCodeThread (TerminateThread mutexEnvOk t code).thread = some code ∧
    (TerminateThread mutexEnvOk t code).cancelRequested = true ∧
    occursBefore TEv.storeExitedFlagAndCode TEv.lockStateMutex
      (TerminateThread_trace mutexEnvOk) = true ∧
    occursBefore TEv.lockStateMutex TEv.cancelRequest
      (TerminateThread_trace mutexEnvOk) = true ∧
    occursBefore TEv.cancelRequest TEv.unlockStateMutex
      (TerminateThread_trace mutexEnvOk) = true := by
  refine ⟨?_, ?_, ?_, ?_, ?_, by decide, by decide, by decide⟩ <;>
    simp [TerminateThread, mutexEnvOk, winpr_Handle_GetInfo, hv, set_event,
      GetExitCodeThread]

/-- Witness for the amended C3 at `sampleStarted` and exit code 9. -/
theorem C3_witness :
    (TerminateThread mutexEnvOk sampleStarted 9).ret = true ∧
    (TerminateThread mutexEnvOk sampleStarted 9).thread.exited = true ∧
    (TerminateThread mutexEnvOk sampleStarted 9).thread.eventSet = true ∧
    GetExitCodeThread (TerminateThread mutexEnvOk sampleStarted 9).thread =
      some 9 ∧
    (TerminateThread mutexEnvOk sampleStarted 9).cancelRequested = true ∧
    occursBefore TEv.storeExitedFlagAndCode TEv.lockStateMutex
      (TerminateThread_trace mutexEnvOk) = true ∧
    occursBefore TEv.lockStateMutex TEv.cancelRequest
      (TerminateThread_trace mutexEnvOk) = true ∧
    occursBefore TEv.cancelRequest TEv.unlockStateMutex
      (TerminateThread_trace mutexEnvOk) = true :=
  C3_terminate_amended sampleStarted 9 rfl

/-- C4 counterexample: `ExitThread` does not drain or clean the object's
callback-queue context.  On a thread with one queued APC item and no exit yet
recorded, after `ExitThread` the queue still holds the item and the context
was not cleaned, refuting the claim's drain/clean conjunct at this input. -/
theorem C4_counterexample :
    ¬ ((ExitThread sampleWithApc 3).thread.apcQueue = [] ∧
       (ExitThread sampleWithApc 3).thread.apcCleaned = true) := by
  decide

/-- C4 (amended): when `ExitThread(code)` runs in the thread's own context
and no explicit exit has been recorded yet, it stores the exit code, sets the
signal latch, and destroys the object exactly when it is detached or was
never properly started (otherwise leaving destruction to a later Close) —
but it leaves the callback-queue context untouched (no drain/clean; that
happens only on the launcher's exit path). -/
theorem C4_selfexit_amended (t : WINPR_THREAD) (code : Nat)
    (hnoexit : t.exited = false) :
    (ExitThread t code).thread.exited = true ∧
    (ExitThread t code).thread.dwExitCode = code ∧
    (ExitThread t code).thread.eventSet = true ∧
    (ExitThread t code).destroyed = (t.detached || !t.started) ∧
    (ExitThread t code).osExitCode = code ∧
    (ExitThread t code).thread.apcQueue = t.apcQueue ∧
    (ExitThread t code).thread.apcCleaned = t.apcCleaned := by
  simp [ExitThread, set_event]

/-- Witness for the amended C4 at `sampleWithApc` and exit code 3. -/
theorem C4_witness :
    (ExitThread sampleWithApc 3).thread.exited = true ∧
    (ExitThread sampleWithApc 3).thread.dwExitCode = 3 ∧
    (ExitThread sampleWithApc 3).thread.eventSet = true ∧
    (ExitThread sampleWithApc 3).destroyed = false ∧
    (ExitThread sampleWithApc 3).osExitCode = 3 ∧
    (ExitThread sampleWithApc 3).thread.apcQueue = [(5, 7)] ∧
    (ExitThread sampleWithApc 3).thread.apcCleaned = false :=
  C4_selfexit_amended sampleWithApc 3 rfl

/-- C5: a thread created with `suspended = true` stays pending (`started`
false) with its signal latch preset to set, so a zero-timeout poll reports
already-signaled even though the start routine has not run; a subsequent
`ResumeThread` returns 0, runs exactly the Start sequence
(`winpr_StartThread`), marking the object started and resetting the latch, so
the thread behaves as in the non-suspended case. -/
theorem C5_suspended_create_resume (s p : Nat) (fn : Option (Nat → Nat))
    (t : WINPR_THREAD)
    (hc : CreateThread createEnvOk s fn p true = some t) :
    t.started = false ∧ t.eventSet = true ∧
    WaitForSingleObject0 t = WAIT_OBJECT_0 ∧
    (ResumeThread mutexEnvOk startEnvOk t).ret = 0 ∧
    (ResumeThread mutexEnvOk startEnvOk t).thread =
      (winpr_StartThread startEnvOk t).1 ∧
    (ResumeThread mutexEnvOk startEnvOk t).thread.started = true ∧
    (ResumeThread mutexEnvOk startEnvOk t).thread.eventSet = false := by
  have ht : t =
      { validType := true, started := false, exited := false, detached := false,
        joined := false, dwExitCode := 0, eventSet := true,
        lpStartAddress := fn, lpParameter := p, dwStackSize := s,
        apcQueue := [], apcCleaned := false } := by
    simpa [CreateThread, createEnvOk, set_event] using hc.symm
  subst ht
  simp [ResumeThread, mutexEnvOk, winpr_Handle_GetInfo, winpr_StartThread,
    startEnvOk, reset_event, WaitForSingleObject0, WAIT_OBJECT_0]

/-- Witness for C5 at `sampleFn`, argument 1, stack size 0. -/
theorem C5_witness :
    sampleSuspended.started = false ∧ sampleSuspended.eventSet = true ∧
    WaitForSingleObject0 sampleSuspended = WAIT_OBJECT_0 ∧
    (ResumeThread mutexEnvOk startEnvOk sampleSuspended).ret = 0 ∧
    (ResumeThread mutexEnvOk startEnvOk sampleSuspended).thread =
      (winpr_StartThread startEnvOk sampleSuspended).1 ∧
    (ResumeThread mutexEnvOk startEnvOk sampleSuspended).thread.started = true ∧
    (ResumeThread mutexEnvOk startEnvOk sampleSuspended).thread.eventSet =
      false :=
  C5_suspended_create_resume 0 1 (some sampleFn) sampleSuspended rfl

/-- C6: `ThreadCloseHandle` always returns TRUE; it destroys the object
synchronously when the thread has already exited (latch set) or was never
started, and otherwise — thread started and latch not set — it does not
destroy or join: it marks the object detached and issues the detach request,
and the thread's own exit path (`launcher_exit`) then performs the final
destruction. -/
theorem C6_close (t : WINPR_THREAD) (rc : Nat) :
    (ThreadCloseHandle t).ret = true ∧
    (t.started = false ∨ t.eventSet = true →
      (ThreadCloseHandle t).destroyed = true ∧
      (ThreadCloseHandle t).detachRequested = false) ∧
    (t.started = true → t.eventSet = false →
      (ThreadCloseHandle t).destroyed = false ∧
      (ThreadCloseHandle t).thread.detached = true ∧
      (ThreadCloseHandle t).detachRequested = true ∧
      (launcher_exit rc (ThreadCloseHandle t).thread).destroyed = true) := by
  rcases hs : t.started <;> rcases he : t.eventSet <;> rcases hex : t.exited <;>
    simp_all [ThreadCloseHandle, WaitForSingleObject0, WAIT_OBJECT_0,
      WAIT_TIMEOUT, launcher_exit, apc_cleanupThread, set_event]

/-- Witness for C6 at the still-running `sampleStarted` (started, latch not
set). -/
theorem C6_witness :
    (ThreadCloseHandle sampleStarted).destroyed = false ∧
    (ThreadCloseHandle sampleStarted).thread.detached = true ∧
    (ThreadCloseHandle sampleStarted).detachRequested = true ∧
    (launcher_exit 0 (ThreadCloseHandle sampleStarted).thread).destroyed =
      true :=
  (C6_close sampleStarted 0).2.2 rfl rfl

/-- C7 counterexample: the claimed teardown order (state mutex first, then the
rendezvous primitives, then the signal primitive, then the callback-queue
context) is false of `cleanup_handle`: on the all-success trace it is not the
case that the state mutex is released before the rendezvous primitives, the
rendezvous primitives before the signal primitive, and the signal primitive
before the callback-queue context — the APC context is released first and the
signal primitive second to last. -/
theorem C7_counterexample :
    ¬ (occursBefore CEv.releaseStateMutex CEv.releaseCondThreadIsReady
         (cleanup_handle_trace cleanupEnvOk) = true ∧
       occursBefore CEv.releaseCondThreadIsReady CEv.releaseSignalPrimitive
         (cleanup_handle_trace cleanupEnvOk) = true ∧
       occursBefore CEv.releaseSignalPrimitive CEv.releaseApcContext
         (cleanup_handle_trace cleanupEnvOk) = true) := by
  decide

/-- C7 (amended): whenever a thread object is destroyed, `cleanup_handle`
releases, in this order and each exactly once: the callback-queue context,
the two rendezvous condition variables, the two rendezvous mutexes, the
object's state mutex, the signal primitive, and finally frees the memory —
and the trace is the same for every combination of release failures, so a
failing release never prevents the remaining steps (including the free) from
executing. -/
theorem C7_cleanup_order (env : CleanupEnv) :
    cleanup_handle_trace env =
      [CEv.releaseApcContext, CEv.releaseCondThreadIsReady,
       CEv.releaseCondThreadReady, CEv.releaseMutexThreadIsReady,
       CEv.releaseMutexThreadReady, CEv.releaseStateMutex,
       CEv.releaseSignalPrimitive, CEv.freeMemory] ∧
    (∀ e : CEv, (cleanup_handle_trace env).count e = 1) ∧
    (cleanup_handle_trace env).getLast? = some CEv.freeMemory := by
  refine ⟨rfl, ?_, rfl⟩
  intro e
  cases e <;> rfl

/-- Witness for the amended C7 at the all-success release environment. -/
theorem C7_witness :
    cleanup_handle_trace cleanupEnvOk =
      [CEv.releaseApcContext, CEv.releaseCondThreadIsReady,
       CEv.releaseCondThreadReady, CEv.releaseMutexThreadIsReady,
       CEv.releaseMutexThreadReady, CEv.releaseStateMutex,
       CEv.releaseSignalPrimitive, CEv.freeMemory] ∧
    (∀ e : CEv, (cleanup_handle_trace cleanupEnvOk).count e = 1) ∧
    (cleanup_handle_trace cleanupEnvOk).getLast? = some CEv.freeMemory :=
  C7_cleanup_order cleanupEnvOk

/-- C8: `SuspendThread` fails on every input handle — it reports
`ERROR_CALL_NOT_IMPLEMENTED` out-of-band, returns the `(DWORD)-1` failure
sentinel, and leaves the object untouched (no suspension is ever attempted);
while `ResumeThread` on an already-started valid object is a no-op returning
0 (success; the code only logs a warning). -/
theorem C8_suspend_fails_resume_noop (t u : WINPR_THREAD)
    (hv : u.validType = true) (hs : u.started = true) :
    SuspendThread t =
      { ret := DWORD_MINUS_ONE,
        lastError := some ERROR_CALL_NOT_IMPLEMENTED, thread := t } ∧
    (SuspendThread t).thread = t ∧
    ResumeThread mutexEnvOk startEnvOk u = { ret := 0, thread := u } := by
  refine ⟨rfl, rfl, ?_⟩
  simp [ResumeThread, mutexEnvOk, winpr_Handle_GetInfo, hv, hs]

/-- Witness for C8 at the (even invalid) `sampleInvalid` for Suspend and the
started `sampleStarted` for Resume. -/
theorem C8_witness :
    SuspendThread sampleInvalid =
      { ret := DWORD_MINUS_ONE,
        lastError := some ERROR_CALL_NOT_IMPLEMENTED,
        thread := sampleInvalid } ∧
    (SuspendThread sampleInvalid).thread = sampleInvalid ∧
    ResumeThread mutexEnvOk startEnvOk sampleStarted =
      { ret := 0, thread := sampleStarted } :=
  C8_suspend_fails_resume_noop sampleInvalid sampleStarted rfl rfl

/-- C9: whenever submission fails in `QueueUserAPC` with a non-null callback —
the handle does not refer to a thread object, or allocation of the bridge
item fails — the call sets `ERROR_INVALID_PARAMETER`, returns 0, and leaves
the target's callback queue unchanged, so the callback is never enqueued and
therefore never runs. -/
theorem C9_queue_apc_failure (f dwData : Nat) (allocOk : Bool)
    (t : WINPR_THREAD) (h : t.validType = false ∨ allocOk = false) :
    (QueueUserAPC (some f) allocOk t dwData).ret = 0 ∧
    (QueueUserAPC (some f) allocOk t dwData).lastError =
      some ERROR_INVALID_PARAMETER ∧
    (QueueUserAPC (some f) allocOk t dwData).thread = t := by
  rcases h with h | h <;> rcases hv : t.validType <;>
    simp_all [QueueUserAPC, winpr_Handle_GetInfo]

/-- Witness for C9 at the non-thread handle `sampleInvalid`. -/
theorem C9_witness :
    (QueueUserAPC (some 5) true sampleInvalid 7).ret = 0 ∧
    (QueueUserAPC (some 5) true sampleInvalid 7).lastError =
      some ERROR_INVALID_PARAMETER ∧
    (QueueUserAPC (some 5) true sampleInvalid 7).thread = sampleInvalid :=
  C9_queue_apc_failure 5 7 true sampleInvalid (Or.inl rfl)

/-- C10: calling `QueueUserAPC` with a NULL callback pointer returns 1 — the
same value returned on successful submission — for every handle (valid or
not) and every allocation outcome, without setting any last-error code and
without enqueueing anything, so the return value cannot distinguish this
rejected call from a successful one. -/
theorem C10_null_apc_indistinguishable (t : WINPR_THREAD) (allocOk : Bool)
    (d : Nat) :
    QueueUserAPC none allocOk t d =
      { ret := 1, lastError := none, thread := t } ∧
    (t.validType = true → ∀ f : Nat,
      (QueueUserAPC (some f) true t d).ret = 1) := by
  refine ⟨rfl, ?_⟩
  intro hv f
  simp [QueueUserAPC, winpr_Handle_GetInfo, hv]

/-- Witness for C10 at the invalid handle `sampleInvalid` (null-callback
branch) and the valid `sampleStarted` (successful-submission branch). -/
theorem C10_witness :
    QueueUserAPC none false sampleInvalid 5 =
      { ret := 1, lastError := none, thread := sampleInvalid } ∧
    (QueueUserAPC (some 9) true sampleStarted 5).ret = 1 :=
  ⟨(C10_null_apc_indistinguishable sampleInvalid false 5).1,
   (C10_null_apc_indistinguishable sampleStarted false 5).2 rfl 9⟩

end WinPRThread
